import Mathlib

/-!
Verification of the CORO gateway backend (`backend/` Python sources) against its
natural-language specification.  The Python code is shallowly embedded: pure
helpers become Lean functions, the effectful service/handler code becomes
functions over explicit state and explicit "environment" values that stand for
the data produced by external systems (upstream LLM HTTP calls, Redis, the
wall clock).  An exception escaping a Python function is modelled with
`Except`; an exception caught inside a function is part of that function's
ordinary control flow and produces an ordinary return value.

Clock readings (`time.time` / `time.monotonic` values) are modelled as whole
milliseconds (`ℤ`); configured windows and TTLs are in seconds (`ℕ`) as in the
code, converted by a factor of 1000 where the code mixes them.  Elapsed-time
measurements `int((time.time() - start) * 1000)` are modelled by a natural
number supplied by the clock environment (wall-clock elapsed time is
non-negative).
-/

namespace Coro

/-! ### Strings: substring search (Python `kw in s`) and truncation

Python's `in` on strings is substring containment; we model it on the
underlying character lists via `List.IsInfix`, which is decidable. -/

/-- `pyIn pat s` models Python `pat in s` (substring containment). -/
def pyIn (pat s : String) : Prop := pat.data <:+: s.data

instance (pat s : String) : Decidable (pyIn pat s) :=
  List.decidableInfix pat.data s.data

/-- Python `int()` applied to a quantity of seconds held in whole
milliseconds: truncation toward zero. -/
def pyIntOfMs (ms : ℤ) : ℤ :=
  if 0 ≤ ms then (ms.toNat / 1000 : ℕ) else -(((-ms).toNat / 1000 : ℕ) : ℤ)

/-- A seconds count as milliseconds. -/
def secMs (s : ℕ) : ℤ := 1000 * s

/-- Python truthiness for an optional string (`None` and `""` are falsy). -/
def pyFalsy : Option String → Bool
  | none => true
  | some s => s == ""

/-- Python `a or b` for optional strings: `b` if `a` is falsy, else `a`. -/
def pyOr (a b : Option String) : Option String :=
  if pyFalsy a then b else a

/-- Python `s.lower()` (character-wise, as used on ASCII error messages). -/
def strLower (s : String) : String := ⟨s.data.map Char.toLower⟩

/-- Python `s.strip()`: drop leading and trailing whitespace. -/
def strTrim (s : String) : String :=
  ⟨((s.data.dropWhile Char.isWhitespace).reverse.dropWhile Char.isWhitespace).reverse⟩

/-- Python `s.startswith(pat)`. -/
def strStartsWith (s pat : String) : Bool := pat.data.isPrefixOf s.data

/-! ### `backend/models/error_codes.py` -/

/-- The fixed error taxonomy of `ErrorCode` (`error_codes.py`). -/
inductive ErrorCode where
  | AUTHENTICATION_FAILED
  | API_KEY_MISSING
  | API_KEY_INVALID
  | UNAUTHORIZED
  | RATE_LIMITED
  | QUOTA_EXCEEDED
  | INVALID_REQUEST
  | INVALID_MODEL
  | INVALID_PARAMETERS
  | MODEL_OVERLOADED
  | MODEL_UNAVAILABLE
  | SERVICE_UNAVAILABLE
  | TIMEOUT
  | CONTENT_FILTERED
  | MAX_TOKENS_REACHED
  | NETWORK_ERROR
  | CONNECTION_ERROR
  | UNKNOWN_ERROR
  | INTERNAL_ERROR
  deriving DecidableEq

/-- The string value of each `ErrorCode` member. -/
def ErrorCode.value : ErrorCode → String
  | .AUTHENTICATION_FAILED => "authentication_failed"
  | .API_KEY_MISSING => "api_key_missing"
  | .API_KEY_INVALID => "api_key_invalid"
  | .UNAUTHORIZED => "unauthorized"
  | .RATE_LIMITED => "rate_limited"
  | .QUOTA_EXCEEDED => "quota_exceeded"
  | .INVALID_REQUEST => "invalid_request"
  | .INVALID_MODEL => "invalid_model"
  | .INVALID_PARAMETERS => "invalid_parameters"
  | .MODEL_OVERLOADED => "model_overloaded"
  | .MODEL_UNAVAILABLE => "model_unavailable"
  | .SERVICE_UNAVAILABLE => "service_unavailable"
  | .TIMEOUT => "timeout"
  | .CONTENT_FILTERED => "content_filtered"
  | .MAX_TOKENS_REACHED => "max_tokens_reached"
  | .NETWORK_ERROR => "network_error"
  | .CONNECTION_ERROR => "connection_error"
  | .UNKNOWN_ERROR => "unknown_error"
  | .INTERNAL_ERROR => "internal_error"

/-- `any(keyword in error_str for keyword in kws)` over a lowercased message. -/
def anyKeyword (s : String) (kws : List String) : Bool :=
  kws.any (fun k => decide (pyIn k s))

/-- `categorize_error` from `error_codes.py`: keyword matching over the
lowercased exception message, first match wins, in source order. -/
def categorize_error (msg : String) : ErrorCode :=
  let e := strLower msg
  if anyKeyword e ["api key", "authentication", "401", "unauthorized"] then
    .AUTHENTICATION_FAILED
  else if anyKeyword e ["rate limit", "429", "too many requests"] then
    .RATE_LIMITED
  else if anyKeyword e ["quota", "exceeded"] then
    .QUOTA_EXCEEDED
  else if anyKeyword e ["overloaded", "503"] then
    .MODEL_OVERLOADED
  else if anyKeyword e ["unavailable", "502", "504"] then
    .SERVICE_UNAVAILABLE
  else if anyKeyword e ["timeout", "timed out"] then
    .TIMEOUT
  else if anyKeyword e ["safety", "blocked", "filter", "content policy"] then
    .CONTENT_FILTERED
  else if anyKeyword e ["connection", "network", "dns"] then
    .NETWORK_ERROR
  else
    .UNKNOWN_ERROR

/-! ### `backend/models/schemas.py` (the parts the claims use) -/

/-- `Message`: one conversation-history entry. -/
structure Message where
  role : String
  content : String
  deriving DecidableEq

/-- `SearchResult`: a single search finding. -/
structure SearchResult where
  title : String
  snippet : String
  url : String
  deriving DecidableEq

/-- `SearchContext`: query plus findings. -/
structure SearchContext where
  query : String
  results : List SearchResult
  deriving DecidableEq

/-- `ModelResponse`: the per-provider response record. -/
structure ModelResponse where
  model : String
  response : String
  tokens : Option ℤ
  latency_ms : ℤ
  error : Option String
  error_code : Option String
  deriving DecidableEq

/-- `ChatRequest` (validated): `prompt`, `models`, generation parameters and
the optional per-model history / overrides / guidance / search context.
Python dicts keyed by model id are modelled as association lists. -/
structure ChatRequest where
  prompt : String
  models : List String
  temperature : ℚ
  max_tokens : ℕ
  top_p : Option ℚ
  conversation_history : Option (List (String × List Message))
  api_overrides : Option (List (String × String))
  conversation_guide : Option String
  search_context : Option SearchContext

/-- `ChatResponse`: aggregate of per-model responses plus total latency. -/
structure ChatResponse where
  responses : List ModelResponse
  total_latency_ms : ℤ
  deriving DecidableEq

/-- An `HTTPException` raised by a route handler. -/
structure HttpError where
  status : ℕ
  detail : String
  deriving DecidableEq

/-! ### `backend/config.py` (the static model registry) -/

/-- `config.MODELS`, reduced to the association `model id ↦ model_name`. -/
def configModels : List (String × String) :=
  [("gemini", "gemini-2.5-flash"),
   ("llama-70b", "llama-3.3-70b-versatile"),
   ("llama-8b", "llama-3.1-8b-instant"),
   ("mixtral", "meta-llama/llama-4-maverick-17b-128e-instruct"),
   ("deepseek", "deepseek-chat")]

/-- The configured model identifiers (the keys of `config.MODELS`). -/
def configModelIds : List String := configModels.map Prod.fst

/-- `config.MODELS[model_id]["model_name"]` as a partial lookup. -/
def configModelName (mid : String) : Option String :=
  configModels.lookup mid

/-! ### Provider service clients (`backend/services/*_service.py`)

Each `generate` is modelled as a function of (a) the service's configured
credentials, (b) the normalized request data, and (c) an *outcome* value
describing what the external upstream call produced (a response, or an
exception with a given message).  Generation parameters (`temperature`,
`max_tokens`, `top_p`) are forwarded verbatim into the upstream payload and
never influence any state visible to this model, so they are absorbed into
the outcome value.  The measured latency `int((time.time()-start)*1000)` is
the natural number `elapsedMs` supplied by the clock environment. -/

/-- One entry of an outbound `messages` array (`{"role": .., "content": ..}`). -/
structure ChatMsg where
  role : String
  content : String
  deriving DecidableEq

/-- A successful `ModelResponse` as built by the service clients. -/
def successResponse (model text : String) (tokens : Option ℤ) (elapsedMs : ℕ) :
    ModelResponse :=
  { model := model, response := text, tokens := tokens, latency_ms := elapsedMs,
    error := none, error_code := none }

/-- An error `ModelResponse` as built by the service clients. -/
def errorResponse (model msg : String) (code : ErrorCode) (elapsedMs : ℕ) :
    ModelResponse :=
  { model := model, response := "", tokens := none, latency_ms := elapsedMs,
    error := some msg, error_code := some code.value }

/-! #### GroqService (`groq_service.py`) -/

/-- What the Groq upstream interaction produced: an exception raised while
creating the completion, or a completion with extracted text (after the
`or ""` null-guard) and optional `usage.completion_tokens`. -/
inductive UpstreamOutcome where
  | raised (msg : String)
  | responded (text : String) (tokens : Option ℤ)
  deriving DecidableEq

/-- `GroqService.generate`: message list built from history then the prompt
(the function has no `system_prompt` parameter, so no system message is ever
added).  All failures inside the `try` are converted to an error response. -/
def groqMessages (history : List Message) (prompt : String) : List ChatMsg :=
  (history.map (fun m => ChatMsg.mk m.role m.content)) ++
    [ChatMsg.mk "user" prompt]

/-- `GroqService.generate` (`groq_service.py` lines 19–120).  `defaultKey` is
`config.GROQ_API_KEY`; a falsy key with no override means `self.client` is
`None` and a `ValueError` is raised inside the `try`, hence converted. -/
def groqGenerate (defaultKey overrideKey : Option String) (mid prompt : String)
    (history : List Message) (outcome : UpstreamOutcome) (elapsedMs : ℕ) :
    ModelResponse :=
  if pyFalsy (pyOr overrideKey defaultKey) then
    -- raise ValueError("Groq API key not configured") — caught by `except`
    errorResponse mid "Groq API key not configured"
      (categorize_error "Groq API key not configured") elapsedMs
  else if ¬ configModelIds.contains mid then
    -- raise ValueError(f"Unknown model ID: {model_id}") — caught by `except`
    errorResponse mid ("Unknown model ID: " ++ mid)
      (categorize_error ("Unknown model ID: " ++ mid)) elapsedMs
  else
    match outcome with
    | .raised msg => errorResponse mid msg (categorize_error msg) elapsedMs
    | .responded text tokens => successResponse mid text tokens elapsedMs

/-! #### CerebrasService (`cerebras_service.py`) -/

/-- `messages` list of `CerebrasService.generate` (lines 50–55): optional
system message, then history, then the prompt as final user message. -/
def cerebrasMessages (systemPrompt : Option String) (history : List Message)
    (prompt : String) : List ChatMsg :=
  (if pyFalsy systemPrompt then []
   else [ChatMsg.mk "system" (systemPrompt.getD "")]) ++
  (history.map (fun m => ChatMsg.mk m.role m.content)) ++
  [ChatMsg.mk "user" prompt]

/-- `CerebrasService.generate` (lines 22–96): a falsy configured key returns
an `authentication_failed` response immediately; an exception during the HTTP
exchange is converted; otherwise text/tokens are extracted. -/
def cerebrasGenerate (apiKey : Option String) (returnModelId prompt : String)
    (history : List Message) (systemPrompt : Option String)
    (outcome : UpstreamOutcome) (elapsedMs : ℕ) : ModelResponse :=
  if pyFalsy apiKey then
    errorResponse returnModelId "Cerebras API key not configured"
      .AUTHENTICATION_FAILED elapsedMs
  else
    match outcome with
    | .raised msg => errorResponse returnModelId msg (categorize_error msg) elapsedMs
    | .responded text tokens => successResponse returnModelId text tokens elapsedMs

/-! #### DeepSeekService (`deepseek_service.py`) -/

/-- `messages` list of `DeepSeekService.generate` (lines 80–98). -/
def deepseekMessages (systemPrompt : Option String) (history : List Message)
    (prompt : String) : List ChatMsg :=
  (if pyFalsy systemPrompt then []
   else [ChatMsg.mk "system" (systemPrompt.getD "")]) ++
  (history.map (fun m => ChatMsg.mk m.role m.content)) ++
  [ChatMsg.mk "user" prompt]

/-- What the DeepSeek HTTP exchange produced: an `httpx.HTTPStatusError`
(status, response body, and the exception's own string form), some other
exception, or a parsed JSON body with extracted text/tokens. -/
inductive DeepSeekOutcome where
  | httpStatus (status : ℕ) (body excStr : String)
  | raised (msg : String)
  | responded (text : String) (tokens : Option ℤ)
  deriving DecidableEq

/-- `DeepSeekService.generate` (lines 50–176).  The missing-key `ValueError`
is raised *inside* the `try` and lands in the generic `except` branch. -/
def deepseekGenerate (defaultKey overrideKey : Option String) (prompt : String)
    (history : List Message) (systemPrompt : Option String)
    (outcome : DeepSeekOutcome) (elapsedMs : ℕ) : ModelResponse :=
  if pyFalsy (pyOr overrideKey defaultKey) then
    errorResponse "deepseek" "DeepSeek API key not configured"
      (categorize_error "DeepSeek API key not configured") elapsedMs
  else
    match outcome with
    | .httpStatus status body excStr =>
        errorResponse "deepseek" ("HTTP " ++ toString status ++ ": " ++ body)
          (if status = 401 then .AUTHENTICATION_FAILED
           else if status = 429 then .RATE_LIMITED
           else if status = 502 ∨ status = 503 ∨ status = 504 then .SERVICE_UNAVAILABLE
           else categorize_error excStr)
          elapsedMs
    | .raised msg => errorResponse "deepseek" msg (categorize_error msg) elapsedMs
    | .responded text tokens => successResponse "deepseek" text tokens elapsedMs

/-! #### GeminiService (`gemini_service.py`) -/

/-- A Gemini response candidate: its `finish_reason` and whether
`candidate.content.parts` is non-empty. -/
structure GeminiCandidate where
  finishReason : ℕ
  hasParts : Bool
  deriving DecidableEq

/-- What `model.generate_content` produced: an exception, or a response with
its candidate list and the value of `response.text`. -/
inductive GeminiOutcome where
  | raised (msg : String)
  | responded (candidates : List GeminiCandidate) (text : String)
  deriving DecidableEq

/-- The `finish_reason_map` lookup with its `UNKNOWN(..)` default. -/
def finishReasonName (n : ℕ) : String :=
  if n = 0 then "UNSPECIFIED"
  else if n = 1 then "STOP"
  else if n = 2 then "MAX_TOKENS"
  else if n = 3 then "SAFETY"
  else if n = 4 then "RECITATION"
  else if n = 5 then "OTHER"
  else "UNKNOWN(" ++ toString n ++ ")"

/-- `GeminiService._estimate_tokens`: `len(text) // 4`. -/
def estimateTokens (text : String) : ℤ := (text.length : ℤ) / 4

/-- The body of GeminiService's `try` block after the upstream call: empty
candidate list, blocked content and missing parts all raise a `ValueError`
(which the local `except` then converts); otherwise the final text is
produced, with the truncation note appended on `finish_reason == 2`. -/
def geminiTry (outcome : GeminiOutcome) : Except String String :=
  match outcome with
  | .raised msg => .error msg
  | .responded candidates text =>
    match candidates with
    | [] => .error "No response candidates returned"
    | c :: _ =>
      if c.hasParts = false then
        if c.finishReason = 3 then
          .error "Response blocked by Gemini safety filters. Try rephrasing your prompt."
        else if c.finishReason = 4 then
          .error "Response blocked due to potential copyright content."
        else
          .error ("No content generated. Reason: " ++ finishReasonName c.finishReason)
      else
        .ok (if c.finishReason = 2 then
              text ++ "\n\n[Note: Response truncated due to token limit]"
             else text)

/-- GeminiService's `except` handler (lines 166–184): categorize, then
override for safety/blocked and api-key messages. -/
def geminiErrorResponse (msg : String) (elapsedMs : ℕ) : ModelResponse :=
  let lower := strLower msg
  let code :=
    if decide (pyIn "safety" lower) || decide (pyIn "blocked" lower) then
      ErrorCode.CONTENT_FILTERED
    else if decide (pyIn "api key" lower) then
      ErrorCode.AUTHENTICATION_FAILED
    else categorize_error msg
  errorResponse "gemini" msg code elapsedMs

/-- `GeminiService.generate` (lines 21–184).  The missing-key check sits
*before* the `try` block (lines 47–49), so a missing key makes `generate`
itself raise `ValueError` — modelled as `Except.error`.  Every other failure
is caught inside and converted into a `ModelResponse`. -/
def geminiGenerate (defaultKey overrideKey : Option String) (prompt : String)
    (history : List Message) (systemPrompt : Option String)
    (outcome : GeminiOutcome) (elapsedMs : ℕ) : Except String ModelResponse :=
  if pyFalsy (pyOr overrideKey defaultKey) then
    .error "Gemini API key not configured"
  else
    .ok (match geminiTry outcome with
      | .ok text => successResponse "gemini" text (some (estimateTokens text)) elapsedMs
      | .error msg => geminiErrorResponse msg elapsedMs)

/-- The combined prompt string built by `GeminiService.generate` (lines
56–72): optional stripped system prompt, then the history transcript, then
`User: {prompt}\n\nAssistant:`, joined by blank lines. -/
def geminiCombinedPrompt (systemPrompt : Option String) (history : List Message)
    (prompt : String) : String :=
  let historyText :=
    String.join (history.map (fun m =>
      (if m.role == "user" then "User" else "Assistant") ++ ": " ++ m.content ++ "\n\n"))
  let sections :=
    (if pyFalsy systemPrompt then [] else [strTrim (systemPrompt.getD "")]) ++
    (if history.isEmpty then []
     else if historyText == "" then [] else [strTrim historyText]) ++
    ["User: " ++ prompt ++ "\n\nAssistant:"]
  String.intercalate "\n\n" (sections.filter (fun s => ¬ s == ""))

/-! ### Chat router (`backend/routers/chat.py`) -/

/-- One rendered search finding (`chat.py` lines 328–336):
`[S{idx}] {title}\n{snippet}\nSource: {url}` with stripped fields. -/
def renderFinding (idx : ℕ) (r : SearchResult) : String :=
  "[S" ++ toString idx ++ "] " ++ strTrim r.title ++ "\n" ++
    strTrim r.snippet ++ "\nSource: " ++ strTrim r.url

/-- The fixed framing sentence of the composed system prompt. -/
def systemPromptHeader : String :=
  "You are contributing one perspective within CORO, an app that gathers diverse AI viewpoints. " ++
  "Offer thoughtful, well-reasoned answers that complement other assistants, and respect the guidance and context below."

/-- The trailing citation instruction of the findings section. -/
def citeInstruction : String :=
  "\n\nWhen referencing these sources, cite them inline as [S1], [S2], etc."

/-- The findings section: header (with or without the query), the enumerated
findings separated by blank lines, and the citation instruction. -/
def findingsSection (query : String) (results : List SearchResult) : String :=
  let q := strTrim query
  let summaryLines := (List.range results.length).zip results |>.map
    (fun p => renderFinding (p.1 + 1) p.2)
  (if ¬ q == "" then "Web Search Findings for \"" ++ q ++ "\":\n"
   else "Web Search Findings:\n") ++
  String.intercalate "\n\n" summaryLines ++ citeInstruction

/-- `_compose_system_prompt` (`chat.py` lines 307–354). -/
def composeSystemPrompt (guide : Option String) (ctx : Option SearchContext) :
    Option String :=
  let guideSections : List String :=
    if pyFalsy guide then []
    else
      let cleaned := strTrim (guide.getD "")
      if cleaned == "" then [] else ["Conversation Guide:\n" ++ cleaned]
  let searchSections : List String :=
    match ctx with
    | none => []
    | some c =>
      if c.results.isEmpty then []
      else
        let summaryLines := (List.range c.results.length).zip c.results |>.map
          (fun p => renderFinding (p.1 + 1) p.2)
        if summaryLines.isEmpty then []
        else [findingsSection c.query c.results]
  let sections := guideSections ++ searchSections
  if sections.isEmpty then none
  else some (systemPromptHeader ++ "\n\n" ++ String.intercalate "\n\n" sections)

/-- The per-model upstream/clock environment for one dispatch: what each
provider's external interaction would produce, and the elapsed time the
service would measure.  (Only the component matching the dispatched provider
is consulted.) -/
structure ProviderCallEnv where
  geminiOutcome : GeminiOutcome
  deepseekOutcome : DeepSeekOutcome
  upstream : UpstreamOutcome
  elapsedMs : ℕ

/-- Configured provider credentials (`config.*_API_KEY`). -/
structure Keys where
  gemini : Option String
  groq : Option String
  deepseek : Option String
  cerebras : Option String

/-- str(TypeError) for the call `groq_service.generate(.., system_prompt=..)`:
`GroqService.generate` (`groq_service.py` lines 19–28) takes no
`system_prompt` keyword, so the call expression in `chat.py` lines 250–259
raises `TypeError` before the service body runs (CPython ≥ 3.10 phrasing). -/
def groqTypeErrorMsg : String :=
  "GroqService.generate() got an unexpected keyword argument \x27system_prompt\x27"

/-- str(KeyError) for `config.MODELS[model_id]` on a missing id. -/
def keyErrorMsg (mid : String) : String := "\x27" ++ mid ++ "\x27"

/-- The `except Exception` fallback of `_generate_for_model` (lines 295–304). -/
def unexpectedErrorResponse (mid msg : String) : ModelResponse :=
  { model := mid, response := "", tokens := none, latency_ms := 0,
    error := some ("Unexpected error: " ++ msg),
    error_code := some ErrorCode.INTERNAL_ERROR.value }

/-- `_generate_for_model` (`chat.py` lines 210–304): dispatch by model id to
the provider clients, catching every exception into an `internal_error`
response.  The groq branch always raises `TypeError` at the call site
(unexpected keyword argument `system_prompt`), which the `except` converts;
`GroqService.generate` itself is never reached from here. -/
def generateForModel (keys : Keys) (env : ProviderCallEnv) (mid prompt : String)
    (history : List Message) (apiKeyOverride : Option String)
    (systemPrompt : Option String) : ModelResponse :=
  if mid = "gemini" then
    match geminiGenerate keys.gemini apiKeyOverride prompt history systemPrompt
        env.geminiOutcome env.elapsedMs with
    | .ok r => r
    | .error msg => unexpectedErrorResponse mid msg
  else if mid = "llama-70b" ∨ mid = "llama-8b" ∨ mid = "mixtral" then
    unexpectedErrorResponse mid groqTypeErrorMsg
  else if mid = "deepseek" then
    deepseekGenerate keys.deepseek apiKeyOverride prompt history systemPrompt
      env.deepseekOutcome env.elapsedMs
  else if strStartsWith mid "cerebras-" then
    match configModelName mid with
    | some _ => cerebrasGenerate keys.cerebras mid prompt history systemPrompt
        env.upstream env.elapsedMs
    | none => unexpectedErrorResponse mid (keyErrorMsg mid)
  else
    { model := mid, response := "", tokens := none, latency_ms := 0,
      error := some ("Unknown model: " ++ mid),
      error_code := some ErrorCode.INVALID_MODEL.value }

/-- The conversation history passed to `_generate_for_model` for `mid`
(`chat.py` lines 140–143): the model's slice of the per-model history dict,
defaulting to `[]`. -/
def historyFor (req : ChatRequest) (mid : String) : List Message :=
  ((req.conversation_history.getD []).lookup mid).getD []

/-- `override_keys.get(model_id)` with `override_keys = api_overrides or {}`. -/
def overrideFor (req : ChatRequest) (mid : String) : Option String :=
  (req.api_overrides.getD []).lookup mid

/-- The `ModelResponse` the chat handler obtains for one requested model id. -/
def chatEntry (keys : Keys) (env : String → ProviderCallEnv) (req : ChatRequest)
    (mid : String) : ModelResponse :=
  generateForModel keys (env mid) mid req.prompt (historyFor req mid)
    (overrideFor req mid)
    (composeSystemPrompt req.conversation_guide req.search_context)

/-- The `chat` handler (`chat.py` lines 104–171), after schema validation and
the auth / rate-limit dependencies: reject the whole request when any
requested id is unknown, otherwise gather one `ModelResponse` per requested
model (in request order — `asyncio.gather` preserves argument order) and
report the total wall-clock latency `totalElapsedMs`. -/
def chat (keys : Keys) (env : String → ProviderCallEnv) (totalElapsedMs : ℕ)
    (req : ChatRequest) : Except HttpError ChatResponse :=
  let invalid := req.models.filter (fun m => ¬ configModelIds.contains m)
  if ¬ invalid.isEmpty then
    .error { status := 400,
             detail := "Invalid model IDs: " ++ String.intercalate ", " invalid }
  else
    .ok { responses := req.models.map (chatEntry keys env req),
          total_latency_ms := totalElapsedMs }

/-! ### Rate limiting (`backend/services/rate_limiter.py`)

The Redis store is modelled as a key → (counter value, optional absolute
expiry time) map.  A key whose expiry time has been reached behaves as
absent (Redis removes expired keys); `INCR` on an absent key creates it with
value 1 and no expiry; `EXPIRE` sets the expiry; `TTL` reports the remaining
lifetime in whole seconds (Redis rounds to the nearest second), `-1` for no
expiry and `-2` for a missing key. -/

/-- One Redis counter entry: current value and optional absolute expiry. -/
structure RedisEntry where
  count : ℕ
  expiresAt : Option ℤ
  deriving DecidableEq

/-- The Redis keyspace. -/
def RedisStore : Type := String → Option RedisEntry

/-- The empty Redis keyspace. -/
def emptyRedis : RedisStore := fun _ => none

/-- Whether an entry is still live at time `now`. -/
def RedisEntry.live (e : RedisEntry) (now : ℤ) : Bool :=
  match e.expiresAt with
  | none => true
  | some t => decide (now < t)

/-- Lookup that treats expired keys as absent. -/
def redisLookup (s : RedisStore) (k : String) (now : ℤ) : Option RedisEntry :=
  match s k with
  | none => none
  | some e => if e.live now then some e else none

/-- `INCR k`: create-or-increment; a fresh key has no expiry. -/
def redisIncr (s : RedisStore) (k : String) (now : ℤ) : ℕ × RedisStore :=
  match redisLookup s k now with
  | none => (1, fun k2 => if k2 = k then some ⟨1, none⟩ else s k2)
  | some e => (e.count + 1, fun k2 => if k2 = k then some ⟨e.count + 1, e.expiresAt⟩ else s k2)

/-- `EXPIRE k seconds`: set the expiry of a live key. -/
def redisExpire (s : RedisStore) (k : String) (seconds : ℕ) (now : ℤ) : RedisStore :=
  match redisLookup s k now with
  | none => s
  | some e => fun k2 => if k2 = k then some ⟨e.count, some (now + secMs seconds)⟩ else s k2

/-- `TTL k`: remaining lifetime in seconds (rounded to the nearest second),
`-1` when the key has no expiry, `-2` when the key is absent. -/
def redisTtl (s : RedisStore) (k : String) (now : ℤ) : ℤ :=
  match redisLookup s k now with
  | none => -2
  | some e =>
    match e.expiresAt with
    | none => -1
    | some t => Int.fdiv (t - now + 500) 1000

/-- `RedisLimiterBackend.acquire` (`rate_limiter.py` lines 40–46): increment,
set the window expiry when the increment created the counter, and reject with
`retry_after = max(ttl, 1)` when the post-increment count exceeds the limit. -/
def redisAcquire (s : RedisStore) (key : String) (limit window : ℕ) (now : ℤ) :
    Except ℤ Unit × RedisStore :=
  let (counter, s1) := redisIncr s key now
  let s2 := if counter = 1 then redisExpire s1 key window now else s1
  if limit < counter then
    (.error (max (redisTtl s2 key now) 1), s2)
  else
    (.ok (), s2)

/-- `Modelled from the spec:` the fixed-window acquire as §4.1 words it for
comparison — a counter keyed by `(tier, identity, window-start)` (the
window-start component of the key; the code has no such component).  Used
only to exhibit the divergence from `redisAcquire`. -/
def specWindowStartKey (baseKey : String) (window : ℕ) (now : ℤ) : String :=
  baseKey ++ ":" ++ toString (Int.fdiv now (secMs window))

/-- `Modelled from the spec:` increment the per-window counter and reject
when the post-increment count exceeds the limit (spec §4.1, fixed-window). -/
def specWindowStartAcquire (s : RedisStore) (baseKey : String)
    (limit window : ℕ) (now : ℤ) : Except ℤ Unit × RedisStore :=
  let k := specWindowStartKey baseKey window now
  let (counter, s1) := redisIncr s k now
  let s2 := if counter = 1 then redisExpire s1 k window now else s1
  if limit < counter then
    (.error (max (redisTtl s2 k now) 1), s2)
  else
    (.ok (), s2)

/-! #### In-memory sliding-window backend -/

/-- Result of `InMemoryLimiterBackend.acquire`: the request is admitted (with
the updated bucket), rejected by `RateLimitExceeded` (with the retry hint and
the pruned bucket, which the backend keeps), or the backend raises
`IndexError` (`bucket[0]` with `limit == 0` and an empty pruned bucket). -/
inductive MemAcquireResult where
  | allowed (bucket : List ℤ)
  | rejected (retryAfter : ℤ) (bucket : List ℤ)
  | indexError
  deriving DecidableEq

/-- `InMemoryLimiterBackend.acquire` (`rate_limiter.py` lines 59–73): drop
leading timestamps `≤ now - window`, reject with
`retry_after = int(bucket[0] + window - now) + 1` when the remaining count
has reached the limit, otherwise append `now`. -/
def inMemoryAcquire (bucket : List ℤ) (limit window : ℕ) (now : ℤ) :
    MemAcquireResult :=
  let threshold : ℤ := now - secMs window
  let b := bucket.dropWhile (fun t => decide (t ≤ threshold))
  if limit ≤ b.length then
    match b with
    | [] => .indexError
    | t0 :: _ => .rejected (pyIntOfMs (t0 + secMs window - now) + 1) b
  else
    .allowed (b ++ [now])

/-! #### Premium session store -/

/-- `PremiumSessionStore` state: whether a Redis client is attached, the
Redis key-value view `key ↦ (value, absolute expiry)`, the configured TTL and
the in-process `token ↦ (user_id, expires_at)` dict. -/
structure PremiumStoreState where
  hasRedis : Bool
  kv : String → Option (String × ℤ)
  ttl : ℕ
  sessions : String → Option (String × ℤ)

/-- `PremiumSessionStore.add` (lines 85–92). -/
def premiumAdd (st : PremiumStoreState) (token userId : String) (now : ℤ) :
    PremiumStoreState :=
  if st.hasRedis then
    { st with kv := fun k => if k = "coro:premium:" ++ token
        then some (userId, now + secMs st.ttl) else st.kv k }
  else
    { st with sessions := fun t => if t = token
        then some (userId, now + secMs st.ttl) else st.sessions t }

/-- `PremiumSessionStore.exists` (lines 94–110): empty tokens are refused;
the Redis branch checks key liveness; the in-process branch lazily evicts
entries past their expiry. -/
def premiumExists (st : PremiumStoreState) (token : String) (now : ℤ) :
    Bool × PremiumStoreState :=
  if token = "" then (false, st)
  else if st.hasRedis then
    match st.kv ("coro:premium:" ++ token) with
    | none => (false, st)
    | some (_, e) => (decide (now < e), st)
  else
    match st.sessions token with
    | none => (false, st)
    | some (_, expiresAt) =>
      if expiresAt < now then
        (false, { st with sessions := fun t => if t = token then none else st.sessions t })
      else
        (true, st)

/-! #### RateLimiter and the FastAPI dependency -/

/-- The backend selected at startup: Redis-based fixed window or the
in-process sliding-window fallback (per-key buckets, defaulting to `[]`). -/
inductive BackendState where
  | redis (store : RedisStore)
  | mem (buckets : String → List ℤ)

/-- Outcome of `backend.acquire`: admitted, `RateLimitExceeded`, or an
uncaught `IndexError` from the in-memory backend. -/
inductive AcquireOutcome where
  | ok (st : BackendState)
  | limited (retryAfter : ℤ) (st : BackendState)
  | crashed

/-- Dispatch `acquire` to the selected backend. -/
def backendAcquire (b : BackendState) (key : String) (limit window : ℕ)
    (now : ℤ) : AcquireOutcome :=
  match b with
  | .redis s =>
    match redisAcquire s key limit window now with
    | (.ok _, s2) => .ok (.redis s2)
    | (.error r, s2) => .limited r (.redis s2)
  | .mem buckets =>
    match inMemoryAcquire (buckets key) limit window now with
    | .allowed nb => .ok (.mem (fun k => if k = key then nb else buckets k))
    | .rejected r nb => .limited r (.mem (fun k => if k = key then nb else buckets k))
    | .indexError => .crashed

/-- The `RateLimiter` service object: tier configuration (`limit`, `window`
pairs), the optional backend, the optional session store and the
`initialized` flag. -/
structure RateLimiterModel where
  limits : List (String × ℕ × ℕ)
  backend : Option BackendState
  sessions : Option PremiumStoreState
  initialized : Bool

/-- Outcome of `RateLimiter.check`: pass, `RateLimitExceeded`, or some other
Python exception (`RuntimeError` when uninitialized, `TypeError` when no
tier configuration resolves, `IndexError` from the backend). -/
inductive CheckOutcome where
  | passed (st : BackendState)
  | limited (retryAfter : ℤ) (st : BackendState)
  | pyError (msg : String)

/-- The counter key used by `RateLimiter.check` (line 174):
`coro:rl:{tier}:{key}` — tier and identity only. -/
def checkBucketKey (tier key : String) : String :=
  "coro:rl:" ++ tier ++ ":" ++ key

/-- `RateLimiter.check` (lines 166–175): `RuntimeError` when no backend was
initialized; tier config with fallback to `"anonymous"`; acquire on
`coro:rl:{tier}:{key}`. -/
def rateLimiterCheck (rl : RateLimiterModel) (key tier : String) (now : ℤ) :
    CheckOutcome :=
  match rl.backend with
  | none => .pyError "RateLimiter not initialized"
  | some b =>
    match (rl.limits.lookup tier).orElse (fun _ => rl.limits.lookup "anonymous") with
    | none => .pyError "NoneType object is not subscriptable"
    | some (limit, window) =>
      match backendAcquire b (checkBucketKey tier key) limit window now with
      | .ok st => .passed st
      | .limited r st => .limited r st
      | .crashed => .pyError "list index out of range"

/-- `RateLimiter.is_premium` (lines 161–164). -/
def isPremium (rl : RateLimiterModel) (token : Option String) (now : ℤ) :
    Bool × RateLimiterModel :=
  match rl.sessions with
  | none => (false, rl)
  | some st =>
    match token with
    | none => (false, rl)
    | some t =>
      if t = "" then (false, rl)
      else
        let (b, st2) := premiumExists st t now
        (b, { rl with sessions := some st2 })

/-- The admission-relevant headers and peer address of an inbound request. -/
structure IncomingRequest where
  authorization : Option String
  xCoroSession : Option String
  xCoroDevice : Option String
  clientHost : Option String

/-- Decision of the `enforce_rate_limit` dependency. -/
inductive EnforceDecision where
  | allowed
  | http429 (retryAfter : ℤ)
  | pyError (msg : String)

/-- `enforce_rate_limit` (`rate_limiter.py` lines 199–233): fail-open when
the global limiter is absent or uninitialized; master-token bypass; tier
resolution (premium session > device header > anonymous); identity
resolution (session token > device id > client host > "anonymous"); then
`check`, converting `RateLimitExceeded` into HTTP 429. -/
def enforceRateLimit (limiter : Option RateLimiterModel)
    (coroApiToken : Option String) (req : IncomingRequest) (now : ℤ) :
    EnforceDecision × Option RateLimiterModel :=
  match limiter with
  | none => (.allowed, none)
  | some rl =>
    if rl.initialized = false then (.allowed, some rl)
    else if ¬ pyFalsy coroApiToken ∧ ¬ pyFalsy req.authorization ∧
        req.authorization = some ("Bearer " ++ (coroApiToken.getD "")) then
      (.allowed, some rl)
    else
      let premiumLookup :=
        if ¬ pyFalsy req.xCoroSession then isPremium rl req.xCoroSession now
        else (false, rl)
      let rl2 := premiumLookup.2
      let tier :=
        if ¬ pyFalsy req.xCoroSession ∧ premiumLookup.1 then "premium"
        else if ¬ pyFalsy req.xCoroDevice then "authenticated"
        else "anonymous"
      let identifier :=
        (pyOr req.xCoroSession (pyOr req.xCoroDevice
          (pyOr req.clientHost (some "anonymous")))).getD "anonymous"
      match rateLimiterCheck rl2 identifier tier now with
      | .passed st => (.allowed, some { rl2 with backend := some st })
      | .limited r st => (.http429 r, some { rl2 with backend := some st })
      | .pyError msg => (.pyError msg, some rl2)

/-! ## Theorems -/

/-! ### Generic list lemmas -/

theorem dropWhile_head_false {α : Type} (p : α → Bool) :
    ∀ (l : List α) (a : α) (as : List α), l.dropWhile p = a :: as → p a = false := by
  intro l
  induction l with
  | nil => intro a as h; simp [List.dropWhile] at h
  | cons x xs ih =>
    intro a as h
    by_cases hx : p x = true
    · rw [List.dropWhile_cons_of_pos hx] at h
      exact ih a as h
    · rw [List.dropWhile_cons_of_neg hx] at h
      cases h
      exact Bool.eq_false_iff.mpr hx

theorem dropWhile_dropWhile {α : Type} (p q : α → Bool)
    (hpq : ∀ x, q x = true → p x = true) :
    ∀ l : List α, (l.dropWhile q).dropWhile p = l.dropWhile p := by
  intro l
  induction l with
  | nil => rfl
  | cons x xs ih =>
    by_cases hx : q x = true
    · rw [List.dropWhile_cons_of_pos hx, ih, List.dropWhile_cons_of_pos (hpq x hx)]
    · rw [List.dropWhile_cons_of_neg hx]

theorem dropWhile_isSuffix {α : Type} (p : α → Bool) :
    ∀ l : List α, l.dropWhile p <:+ l := by
  intro l
  induction l with
  | nil => exact List.suffix_refl _
  | cons x xs ih =>
    by_cases hx : p x = true
    · rw [List.dropWhile_cons_of_pos hx]
      exact ih.trans (List.suffix_cons x xs)
    · rw [List.dropWhile_cons_of_neg hx]

theorem length_dropWhile_le {α : Type} (p : α → Bool) (l : List α) :
    (l.dropWhile p).length ≤ l.length :=
  (dropWhile_isSuffix p l).sublist.length_le

theorem sorted_dropWhile_eq_filter (c : ℤ) :
    ∀ l : List ℤ, l.Sorted (· ≤ ·) →
      l.dropWhile (fun t => decide (t ≤ c)) = l.filter (fun t => decide (c < t)) := by
  intro l
  induction l with
  | nil => intro _; rfl
  | cons x xs ih =>
    intro hs
    rw [List.sorted_cons] at hs
    by_cases hx : x ≤ c
    · rw [List.dropWhile_cons_of_pos (by simpa using hx), ih hs.2,
        List.filter_cons_of_neg (by simpa using not_lt.mpr hx)]
    · rw [List.dropWhile_cons_of_neg (by simpa using hx),
        List.filter_cons_of_pos (by simpa using not_le.mp hx)]
      congr 1
      refine (List.filter_eq_self.mpr ?_).symm
      intro a ha
      simpa using lt_of_not_le hx |>.trans_le (hs.1 a ha)

theorem map_filter_comm {α β : Type} (f : α → β) (p : β → Bool) (q : α → Bool)
    (h : ∀ x, p (f x) = q x) :
    ∀ l : List α, (l.map f).filter p = (l.filter q).map f := by
  intro l
  induction l with
  | nil => rfl
  | cons x xs ih =>
    by_cases hx : q x = true
    · rw [List.map_cons, List.filter_cons_of_pos (by rw [h x]; exact hx),
        List.filter_cons_of_pos hx, List.map_cons, ih]
    · rw [List.map_cons, List.filter_cons_of_neg (by rw [h x]; simpa using hx),
        List.filter_cons_of_neg (by simpa using hx), ih]

/-! ### Structural lemmas about the dispatcher -/

theorem geminiGenerate_ok_model (dk ok2 : Option String) (p : String)
    (h : List Message) (sp : Option String) (o : GeminiOutcome) (e : ℕ)
    (r : ModelResponse) (hr : geminiGenerate dk ok2 p h sp o e = .ok r) :
    r.model = "gemini" := by
  unfold geminiGenerate at hr
  split at hr
  · cases hr
  · cases hr
    cases geminiTry o with
    | ok text => simp [successResponse]
    | error msg => simp [geminiErrorResponse, errorResponse]

theorem geminiGenerate_ok_latency (dk ok2 : Option String) (p : String)
    (h : List Message) (sp : Option String) (o : GeminiOutcome) (e : ℕ)
    (r : ModelResponse) (hr : geminiGenerate dk ok2 p h sp o e = .ok r) :
    0 ≤ r.latency_ms := by
  unfold geminiGenerate at hr
  split at hr
  · cases hr
  · cases hr
    cases geminiTry o with
    | ok text => simp [successResponse]
    | error msg => simp [geminiErrorResponse, errorResponse]

theorem deepseekGenerate_model (dk ok2 : Option String) (p : String)
    (h : List Message) (sp : Option String) (o : DeepSeekOutcome) (e : ℕ) :
    (deepseekGenerate dk ok2 p h sp o e).model = "deepseek" := by
  unfold deepseekGenerate
  split
  · simp [errorResponse]
  · cases o <;> simp [errorResponse, successResponse]

theorem deepseekGenerate_latency (dk ok2 : Option String) (p : String)
    (h : List Message) (sp : Option String) (o : DeepSeekOutcome) (e : ℕ) :
    0 ≤ (deepseekGenerate dk ok2 p h sp o e).latency_ms := by
  unfold deepseekGenerate
  split
  · simp [errorResponse]
  · cases o <;> simp [errorResponse, successResponse]

theorem cerebrasGenerate_model (k : Option String) (rid p : String)
    (h : List Message) (sp : Option String) (o : UpstreamOutcome) (e : ℕ) :
    (cerebrasGenerate k rid p h sp o e).model = rid := by
  unfold cerebrasGenerate
  split
  · simp [errorResponse]
  · cases o <;> simp [errorResponse, successResponse]

theorem cerebrasGenerate_latency (k : Option String) (rid p : String)
    (h : List Message) (sp : Option String) (o : UpstreamOutcome) (e : ℕ) :
    0 ≤ (cerebrasGenerate k rid p h sp o e).latency_ms := by
  unfold cerebrasGenerate
  split
  · simp [errorResponse]
  · cases o <;> simp [errorResponse, successResponse]

theorem generateForModel_model (keys : Keys) (env : ProviderCallEnv)
    (mid prompt : String) (history : List Message) (ov sp : Option String) :
    (generateForModel keys env mid prompt history ov sp).model = mid := by
  unfold generateForModel
  split_ifs with h1 h2 h3 h4
  · subst h1
    cases hg : geminiGenerate keys.gemini ov prompt history sp
        env.geminiOutcome env.elapsedMs with
    | ok r =>
      simp only [hg]
      exact geminiGenerate_ok_model _ _ _ _ _ _ _ r hg
    | error msg =>
      simp [hg, unexpectedErrorResponse]
  · simp [unexpectedErrorResponse]
  · rw [h3]
    exact deepseekGenerate_model _ _ _ _ _ _ _
  · cases configModelName mid with
    | some nm => exact cerebrasGenerate_model _ _ _ _ _ _ _
    | none => simp [unexpectedErrorResponse]
  · rfl

theorem generateForModel_latency (keys : Keys) (env : ProviderCallEnv)
    (mid prompt : String) (history : List Message) (ov sp : Option String) :
    0 ≤ (generateForModel keys env mid prompt history ov sp).latency_ms := by
  unfold generateForModel
  split_ifs with h1 h2 h3 h4
  · cases hg : geminiGenerate keys.gemini ov prompt history sp
        env.geminiOutcome env.elapsedMs with
    | ok r =>
      simp only [hg]
      exact geminiGenerate_ok_latency _ _ _ _ _ _ _ r hg
    | error msg =>
      simp [hg, unexpectedErrorResponse]
  · simp [unexpectedErrorResponse]
  · exact deepseekGenerate_latency _ _ _ _ _ _ _
  · cases configModelName mid with
    | some nm => exact cerebrasGenerate_latency _ _ _ _ _ _ _
    | none => simp [unexpectedErrorResponse]
  · simp

theorem chat_ok_of_valid (keys : Keys) (env : String → ProviderCallEnv)
    (te : ℕ) (req : ChatRequest)
    (hv : ∀ m ∈ req.models, configModelIds.contains m) :
    chat keys env te req =
      .ok { responses := req.models.map (chatEntry keys env req),
            total_latency_ms := te } := by
  unfold chat
  have hfil : req.models.filter (fun m => ¬ configModelIds.contains m) = [] := by
    rw [List.filter_eq_nil_iff]
    intro a ha
    simpa using hv a ha
  rw [hfil]
  simp

/-! ### Claim C2 -/

/-- C2 — the claim "each provider client's generate method returns a
ModelResponse and never raises: every failure, including a missing or
unconfigured API key, is caught inside generate" is contradicted by
`GeminiService.generate`: its missing-key check (`gemini_service.py` lines
47–49) sits *before* the `try` block, so with no override and no configured
key the call raises `ValueError` instead of returning a `ModelResponse`.
The dispatcher converts it to an `internal_error` entry, while the sibling
clients (Cerebras, DeepSeek) convert the same condition internally to an
`authentication_failed` response, as the contract demands. -/
theorem geminiGenerate_raises_on_missing_api_key :
    geminiGenerate none none "hello" [] none
        (.responded [⟨1, true⟩] "fine") 5 = .error "Gemini API key not configured" ∧
    geminiGenerate none (some "") "hello" [] none
        (.responded [⟨1, true⟩] "fine") 5 = .error "Gemini API key not configured" ∧
    generateForModel ⟨none, none, none, none⟩
        ⟨.responded [⟨1, true⟩] "fine", .responded "fine" none, .responded "fine" none, 5⟩
        "gemini" "hello" [] none none
      = unexpectedErrorResponse "gemini" "Gemini API key not configured" ∧
    cerebrasGenerate none "cerebras-llama" "hello" [] none (.responded "fine" none) 5
      = errorResponse "cerebras-llama" "Cerebras API key not configured"
          .AUTHENTICATION_FAILED 5 ∧
    deepseekGenerate none none "hello" [] none (.responded "fine" none) 5
      = errorResponse "deepseek" "DeepSeek API key not configured"
          .AUTHENTICATION_FAILED 5 := by
  exact ⟨rfl, rfl, rfl, by decide, by decide⟩

/-! ### Claim C7 -/

/-- C7 — the claim "every provider client builds its outbound message list
as: optional system message first, then history, then the prompt" is
contradicted by `GroqService.generate`: it builds only history followed by
the prompt and takes no `system_prompt` parameter at all; consequently the
dispatcher's call `groq_service.generate(.., system_prompt=..)` (`chat.py`
lines 250–259) raises `TypeError`, which the surrounding `except` turns into
an `internal_error` entry for every groq-family dispatch.  DeepSeek and
Cerebras do put the system message first, as the claim says. -/
theorem groq_dispatch_drops_system_prompt :
    groqMessages [⟨"user", "hi"⟩, ⟨"assistant", "earlier"⟩] "question"
      = [⟨"user", "hi"⟩, ⟨"assistant", "earlier"⟩, ⟨"user", "question"⟩] ∧
    ((groqMessages [⟨"user", "hi"⟩, ⟨"assistant", "earlier"⟩] "question").all
        (fun m => ¬ m.role == "system")) = true ∧
    generateForModel ⟨some "k", some "k", some "k", some "k"⟩
        ⟨.responded [⟨1, true⟩] "fine", .responded "fine" none, .responded "fine" none, 5⟩
        "llama-8b" "question" [⟨"user", "hi"⟩] none (some "SYSTEM GUIDANCE")
      = unexpectedErrorResponse "llama-8b" groqTypeErrorMsg ∧
    deepseekMessages (some "SYSTEM GUIDANCE") [⟨"user", "hi"⟩] "question"
      = [⟨"system", "SYSTEM GUIDANCE"⟩, ⟨"user", "hi"⟩, ⟨"user", "question"⟩] ∧
    cerebrasMessages (some "SYSTEM GUIDANCE") [⟨"user", "hi"⟩] "question"
      = [⟨"system", "SYSTEM GUIDANCE"⟩, ⟨"user", "hi"⟩, ⟨"user", "question"⟩] := by
  exact ⟨by decide, by decide, rfl, by decide, by decide⟩

/-! ### Claim C8 -/

theorem intercalatePair (s a b : String) : String.intercalate s [a, b] = a ++ s ++ b := rfl

theorem intercalateSingle (s a : String) : String.intercalate s [a] = a := rfl

theorem strAppendAssoc (a b c : String) : a ++ b ++ c = a ++ (b ++ c) := by
  apply String.ext
  simp [String.data_append, List.append_assoc]

/-- C8 — counterexample: a guidance string consisting of whitespace only is
supplied (`conversation_guide = " "`, no findings), yet `_compose_system_prompt`
produces no system prompt, contradicting "when a conversation guidance string
and/or structured search findings are supplied, exactly one system prompt is
composed". -/
theorem composeSystemPrompt_blank_guide_counterexample :
    composeSystemPrompt (some " ") none = none ∧ (some " " : Option String) ≠ none := by
  exact ⟨by decide, by decide⟩

/-- C8 (amended): when a guidance string that is non-blank after stripping
and/or a non-empty findings list is supplied, exactly one system prompt is
composed: the fixed framing sentence, then the stripped guidance text under
a `Conversation Guide:` label (if non-blank), then the findings enumerated
`[S1]`, `[S2]`, … each with stripped title, snippet and source URL, followed
by the instruction to cite sources inline with those labels; when neither a
non-blank guidance string nor a non-empty findings list is supplied, no
system prompt is produced. -/
theorem composeSystemPrompt_spec (g q : String) (rs : List SearchResult) :
    (strTrim g ≠ "" →
      composeSystemPrompt (some g) none =
        some (systemPromptHeader ++ "\n\n" ++ ("Conversation Guide:\n" ++ strTrim g))) ∧
    (rs ≠ [] →
      composeSystemPrompt none (some ⟨q, rs⟩) =
        some (systemPromptHeader ++ "\n\n" ++
          ((if strTrim q == "" then "Web Search Findings:\n"
            else "Web Search Findings for \"" ++ strTrim q ++ "\":\n") ++
           String.intercalate "\n\n"
             (((List.range rs.length).zip rs).map (fun p =>
               "[S" ++ toString (p.1 + 1) ++ "] " ++ strTrim p.2.title ++ "\n" ++
                 strTrim p.2.snippet ++ "\nSource: " ++ strTrim p.2.url)) ++
           "\n\nWhen referencing these sources, cite them inline as [S1], [S2], etc."))) ∧
    (strTrim g ≠ "" → rs ≠ [] →
      composeSystemPrompt (some g) (some ⟨q, rs⟩) =
        some (systemPromptHeader ++ "\n\n" ++
          ("Conversation Guide:\n" ++ strTrim g) ++ "\n\n" ++
          ((if strTrim q == "" then "Web Search Findings:\n"
            else "Web Search Findings for \"" ++ strTrim q ++ "\":\n") ++
           String.intercalate "\n\n"
             (((List.range rs.length).zip rs).map (fun p =>
               "[S" ++ toString (p.1 + 1) ++ "] " ++ strTrim p.2.title ++ "\n" ++
                 strTrim p.2.snippet ++ "\nSource: " ++ strTrim p.2.url)) ++
           "\n\nWhen referencing these sources, cite them inline as [S1], [S2], etc."))) ∧
    (strTrim g = "" → composeSystemPrompt (some g) (some ⟨q, []⟩) = none) ∧
    (composeSystemPrompt none none = none) := by
  have hren : ∀ p : ℕ × SearchResult,
      renderFinding (p.1 + 1) p.2 =
        "[S" ++ toString (p.1 + 1) ++ "] " ++ strTrim p.2.title ++ "\n" ++
          strTrim p.2.snippet ++ "\nSource: " ++ strTrim p.2.url := by
    intro p; rfl
  have hfind : ∀ q2 rs2, findingsSection q2 rs2 =
      (if strTrim q2 == "" then "Web Search Findings:\n"
       else "Web Search Findings for \"" ++ strTrim q2 ++ "\":\n") ++
      String.intercalate "\n\n"
        (((List.range rs2.length).zip rs2).map (fun p =>
          "[S" ++ toString (p.1 + 1) ++ "] " ++ strTrim p.2.title ++ "\n" ++
            strTrim p.2.snippet ++ "\nSource: " ++ strTrim p.2.url)) ++
      "\n\nWhen referencing these sources, cite them inline as [S1], [S2], etc." := by
    intro q2 rs2
    have hmap : ((List.range rs2.length).zip rs2).map (fun p => renderFinding (p.1 + 1) p.2)
        = ((List.range rs2.length).zip rs2).map (fun p =>
            "[S" ++ toString (p.1 + 1) ++ "] " ++ strTrim p.2.title ++ "\n" ++
              strTrim p.2.snippet ++ "\nSource: " ++ strTrim p.2.url) :=
      List.map_congr_left (fun p _ => hren p)
    simp only [findingsSection, citeInstruction]
    rw [hmap]
    by_cases hq : (strTrim q2 == "") = true
    · simp [hq]
    · simp [hq]
  have hne : ∀ g2 : String, strTrim g2 ≠ "" → (strTrim g2 == "") = false := by
    intro g2 h
    exact beq_eq_false_iff_ne.mpr h
  have hgne : ∀ g2 : String, strTrim g2 ≠ "" → (g2 == "") = false := by
    intro g2 h
    refine beq_eq_false_iff_ne.mpr ?_
    intro he
    exact h (by rw [he]; rfl)
  refine ⟨?_, ?_, ?_, ?_, ?_⟩
  · intro hg
    unfold composeSystemPrompt
    simp only [pyFalsy, hgne g hg, Option.getD_some, hne g hg,
      Bool.false_eq_true, if_false, List.append_nil, List.isEmpty_cons,
      Bool.not_true, ite_false]
    rw [intercalateSingle]
  · intro hrs
    unfold composeSystemPrompt
    have : rs.isEmpty = false := by
      cases rs with
      | nil => cases hrs rfl
      | cons a l => rfl
    simp only [composeSystemPrompt, pyFalsy, this, Bool.false_eq_true, if_false,
      if_true, Option.getD_none, List.nil_append]
    have hlines : (((List.range rs.length).zip rs).map
        (fun p => renderFinding (p.1 + 1) p.2)).isEmpty = false := by
      cases rs with
      | nil => cases hrs rfl
      | cons a l => simp [List.range_succ_eq_map]
    simp only [hlines, Bool.false_eq_true, if_false, List.isEmpty_cons,
      Bool.not_true, ite_false]
    rw [intercalateSingle, hfind]
  · intro hg hrs
    unfold composeSystemPrompt
    have hrsE : rs.isEmpty = false := by
      cases rs with
      | nil => cases hrs rfl
      | cons a l => rfl
    have hlines : (((List.range rs.length).zip rs).map
        (fun p => renderFinding (p.1 + 1) p.2)).isEmpty = false := by
      cases rs with
      | nil => cases hrs rfl
      | cons a l => simp [List.range_succ_eq_map]
    simp only [composeSystemPrompt, pyFalsy, Option.getD_some, hgne g hg, hne g hg,
      hrsE, hlines, Bool.false_eq_true, if_false, List.isEmpty_cons, Bool.not_true,
      ite_false]
    rw [List.singleton_append, intercalatePair, hfind]
    simp [strAppendAssoc]
  · intro hg
    simp [composeSystemPrompt, pyFalsy, hg]
  · rfl

/-- C8 witness: the amended theorem applied to the guidance text
`"Answer briefly."` and two concrete findings; both hypotheses hold and the
composed prompt is exactly the claimed concatenation. -/
theorem composeSystemPrompt_spec_witness :
    strTrim "Answer briefly." ≠ "" ∧
    ([⟨"T1", "S1text", "http://a"⟩, ⟨"T2", "S2text", "http://b"⟩] :
        List SearchResult) ≠ [] ∧
    composeSystemPrompt (some "Answer briefly.")
        (some ⟨"lean", [⟨"T1", "S1text", "http://a"⟩, ⟨"T2", "S2text", "http://b"⟩]⟩) =
      some (systemPromptHeader ++ "\n\n" ++
        ("Conversation Guide:\n" ++ strTrim "Answer briefly.") ++ "\n\n" ++
        ((if strTrim "lean" == "" then "Web Search Findings:\n"
          else "Web Search Findings for \"" ++ strTrim "lean" ++ "\":\n") ++
         String.intercalate "\n\n"
           (((List.range ([⟨"T1", "S1text", "http://a"⟩,
               ⟨"T2", "S2text", "http://b"⟩] : List SearchResult).length).zip
              ([⟨"T1", "S1text", "http://a"⟩, ⟨"T2", "S2text", "http://b"⟩] :
                List SearchResult)).map (fun p =>
             "[S" ++ toString (p.1 + 1) ++ "] " ++ strTrim p.2.title ++ "\n" ++
               strTrim p.2.snippet ++ "\nSource: " ++ strTrim p.2.url)) ++
         "\n\nWhen referencing these sources, cite them inline as [S1], [S2], etc.")) := by
  refine ⟨by decide, by decide, ?_⟩
  exact (composeSystemPrompt_spec "Answer briefly." "lean"
    [⟨"T1", "S1text", "http://a"⟩, ⟨"T2", "S2text", "http://b"⟩]).2.2.1
    (by decide) (by decide)

/-! ### Claim C5 -/

theorem pyIntOfMs_nonneg (x : ℤ) (hx : 0 ≤ x) : 0 ≤ pyIntOfMs x := by
  rw [pyIntOfMs, if_pos hx]
  exact Int.natCast_nonneg _

/-- C5 — counterexample: with limit 1, window 60 s, a bucket holding the
single timestamp 0 ms and a check at 0 ms, the code rejects with
`retry_after = int(0 + 60 - 0) + 1 = 61`, while the claim's formula
`oldest + window - now` rounded up (with minimum 1) gives 60; moreover at
60000 ms the retained timestamp 0 equals `now - window` exactly — it is not
"older than `now - window`" — yet the code discards it and admits the
request, where the claim ("rejects exactly when L timestamps remain") would
reject. -/
theorem inMemoryAcquire_retry_hint_not_rounded_up :
    inMemoryAcquire [0] 1 60 0 = .rejected 61 [0] ∧
    max (Int.fdiv ((0 : ℤ) + secMs 60 - 0 + 999) 1000) 1 = 60 ∧
    (61 : ℤ) ≠ 60 ∧
    inMemoryAcquire [0] 1 60 60000 = .allowed [60000] := by
  exact ⟨by decide, by decide, by decide, by decide⟩

/-- C5 (amended): each check first discards the leading timestamps that are
older than **or equal to** `now - window`; on a time-sorted bucket these are
exactly the timestamps outside the window.  It rejects exactly when at least
`limit` timestamps remain, with retry hint
`int(oldest_remaining + window - now) + 1` — the truncation of the seconds
value plus one, which is at least 1 (and agrees with "rounded up" except
when `oldest_remaining + window - now` is a whole number of seconds) —
and otherwise appends the current timestamp and allows.  In particular,
with limit 3 and window 60 s, four sequential checks on the same key allow
the first three and reject the fourth with a positive retry-after, and a
later check after the window has elapsed is allowed again. -/
theorem inMemoryAcquire_sliding_window_spec :
    (∀ (bucket : List ℤ) (L W : ℕ) (now : ℤ) (b : List ℤ),
      b = bucket.dropWhile (fun t => decide (t ≤ now - secMs W)) →
        (bucket.Sorted (· ≤ ·) →
          b = bucket.filter (fun t => decide (now - secMs W < t))) ∧
        (b.length < L → inMemoryAcquire bucket L W now = .allowed (b ++ [now])) ∧
        (∀ t0 ts, b = t0 :: ts → L ≤ b.length →
          inMemoryAcquire bucket L W now =
            .rejected (pyIntOfMs (t0 + secMs W - now) + 1) b ∧
          1 ≤ pyIntOfMs (t0 + secMs W - now) + 1)) ∧
    inMemoryAcquire [] 3 60 0 = .allowed [0] ∧
    inMemoryAcquire [0] 3 60 1000 = .allowed [0, 1000] ∧
    inMemoryAcquire [0, 1000] 3 60 2000 = .allowed [0, 1000, 2000] ∧
    inMemoryAcquire [0, 1000, 2000] 3 60 3000 = .rejected 58 [0, 1000, 2000] ∧
    (0 : ℤ) < 58 ∧
    inMemoryAcquire [0, 1000, 2000] 3 60 70000 = .allowed [70000] := by
  refine ⟨?_, by decide, by decide, by decide, by decide, by decide, by decide⟩
  intro bucket L W now b hb
  refine ⟨?_, ?_, ?_⟩
  · intro hs
    rw [hb]
    exact sorted_dropWhile_eq_filter _ _ hs
  · intro hlt
    simp only [inMemoryAcquire]
    rw [← hb, if_neg (not_le.mpr hlt)]
  · intro t0 ts hcons hge
    have hhead : (fun t => decide (t ≤ now - secMs W)) t0 = false :=
      dropWhile_head_false _ bucket t0 ts (hb.symm.trans hcons)
    have hpos : 0 ≤ t0 + secMs W - now := by
      have : ¬ (t0 ≤ now - secMs W) := by simpa using hhead
      omega
    constructor
    · simp only [inMemoryAcquire]
      rw [← hb, if_pos hge, hcons]
    · have := pyIntOfMs_nonneg _ hpos
      omega

/-- C5 witness: the amended theorem applied to the bucket `[0, 1000, 2000]`,
limit 3, window 60 s at time 3000 ms; the pruned bucket keeps all three
timestamps, so the check is rejected with retry hint
`int(0 + 60000 - 3000 ms in seconds) + 1 = 58`. -/
theorem inMemoryAcquire_sliding_window_spec_witness :
    ([0, 1000, 2000] : List ℤ) =
        ([0, 1000, 2000] : List ℤ).dropWhile (fun t => decide (t ≤ 3000 - secMs 60)) ∧
    (inMemoryAcquire [0, 1000, 2000] 3 60 3000 =
        .rejected (pyIntOfMs ((0 : ℤ) + secMs 60 - 3000) + 1) [0, 1000, 2000] ∧
      1 ≤ pyIntOfMs ((0 : ℤ) + secMs 60 - 3000) + 1) := by
  refine ⟨by decide, ?_⟩
  exact ((inMemoryAcquire_sliding_window_spec.1 [0, 1000, 2000] 3 60 3000
    [0, 1000, 2000] (by decide)).2.2 0 [1000, 2000] (by decide) (by decide))

/-! ### Claim C10 -/

/-- C10 — a rejected in-memory check mutates no admission-relevant state:
the rejected request's timestamp is never appended (the stored bucket is the
pruned bucket, a suffix of the old one); any later check at time `t ≥ now`
returns exactly what it would have returned had the rejected attempt never
happened; and once the oldest retained timestamp has left the window, a
later check is allowed again no matter how many rejected attempts occurred
in between (given the bucket invariant `length ≤ limit`). -/
theorem inMemoryAcquire_rejection_no_mutation :
    ∀ (bucket : List ℤ) (L W : ℕ) (now r : ℤ) (b2 : List ℤ),
      inMemoryAcquire bucket L W now = .rejected r b2 →
      (b2 = bucket.dropWhile (fun t => decide (t ≤ now - secMs W)) ∧ b2 <:+ bucket) ∧
      (∀ t, now ≤ t → inMemoryAcquire b2 L W t = inMemoryAcquire bucket L W t) ∧
      (bucket.length ≤ L → ∀ t0 ts, b2 = t0 :: ts → ∀ t, t0 + secMs W ≤ t →
        inMemoryAcquire b2 L W t =
          .allowed (b2.dropWhile (fun x => decide (x ≤ t - secMs W)) ++ [t])) := by
  intro bucket L W now r b2 h
  have hfacts : b2 = bucket.dropWhile (fun t => decide (t ≤ now - secMs W)) ∧
      L ≤ b2.length := by
    revert h
    simp only [inMemoryAcquire]
    split
    · rename_i hcond
      split
      · intro h; cases h
      · rename_i t0 rest heq
        intro h
        injection h with h1 h2
        exact ⟨h2.symm, h2 ▸ hcond⟩
    · intro h; cases h
  obtain ⟨hb2, hlen⟩ := hfacts
  have hdW : ∀ t, now ≤ t →
      b2.dropWhile (fun x => decide (x ≤ t - secMs W)) =
        bucket.dropWhile (fun x => decide (x ≤ t - secMs W)) := by
    intro t ht
    rw [hb2]
    exact dropWhile_dropWhile _ _ (by
      intro x hx
      simp only [decide_eq_true_eq] at hx ⊢
      omega) bucket
  refine ⟨⟨hb2, hb2 ▸ dropWhile_isSuffix _ bucket⟩, ?_, ?_⟩
  · intro t ht
    simp only [inMemoryAcquire]
    rw [hdW t ht]
  · intro hbl t0 ts hcons t ht
    have hlen2 : b2.length ≤ bucket.length := by
      rw [hb2]
      exact length_dropWhile_le _ bucket
    have hdrop : b2.dropWhile (fun x => decide (x ≤ t - secMs W)) =
        ts.dropWhile (fun x => decide (x ≤ t - secMs W)) := by
      rw [hcons, List.dropWhile_cons_of_pos (by simpa using by omega : _)]
    have hlt : (b2.dropWhile (fun x => decide (x ≤ t - secMs W))).length < L := by
      rw [hdrop]
      have h1 : (ts.dropWhile (fun x => decide (x ≤ t - secMs W))).length ≤ ts.length :=
        length_dropWhile_le _ ts
      have h2 : ts.length + 1 = b2.length := by rw [hcons]; rfl
      omega
    simp only [inMemoryAcquire]
    rw [if_neg (not_le.mpr hlt)]

/-- C10 witness: the theorem applied to the concrete rejected check on
bucket `[0, 1000, 2000]` with limit 3, window 60 s at 3000 ms: the stored
bucket is unchanged, a check at 70000 ms behaves as if the rejection never
happened, and it is allowed because the oldest timestamp has left the
window. -/
theorem inMemoryAcquire_rejection_no_mutation_witness :
    (([0, 1000, 2000] : List ℤ) =
        ([0, 1000, 2000] : List ℤ).dropWhile (fun t => decide (t ≤ 3000 - secMs 60)) ∧
      ([0, 1000, 2000] : List ℤ) <:+ [0, 1000, 2000]) ∧
    (∀ t, (3000 : ℤ) ≤ t →
      inMemoryAcquire [0, 1000, 2000] 3 60 t = inMemoryAcquire [0, 1000, 2000] 3 60 t) ∧
    (([0, 1000, 2000] : List ℤ).length ≤ 3 → ∀ t0 ts,
      ([0, 1000, 2000] : List ℤ) = t0 :: ts → ∀ t, t0 + secMs 60 ≤ t →
      inMemoryAcquire [0, 1000, 2000] 3 60 t =
        .allowed (([0, 1000, 2000] : List ℤ).dropWhile
          (fun x => decide (x ≤ t - secMs 60)) ++ [t])) :=
  inMemoryAcquire_rejection_no_mutation [0, 1000, 2000] 3 60 3000 58 [0, 1000, 2000]
    (by decide)

/-! ### Claim C4 -/

/-- C4 — counterexample: the distributed counter is keyed by
`coro:rl:{tier}:{identity}` with **no window-start component**.  With limit 1
and window 10 s, acquires at 9000 ms and 11000 ms lie in different fixed
windows (window-starts 0 and 1), so the claimed `(tier, identity,
window-start)` keying would count them in separate counters and admit both —
the spec-worded model (`specWindowStartAcquire`) does admit both — but the
code increments the same still-live key to 2 and rejects the second acquire
with retry-after 8. -/
theorem redis_counter_not_window_start_keyed :
    checkBucketKey "anonymous" "device-1" = "coro:rl:anonymous:device-1" ∧
    Int.fdiv 9000 (secMs 10) ≠ Int.fdiv 11000 (secMs 10) ∧
    (redisAcquire emptyRedis (checkBucketKey "anonymous" "device-1") 1 10 9000).1
      = .ok () ∧
    (redisAcquire
        (redisAcquire emptyRedis (checkBucketKey "anonymous" "device-1") 1 10 9000).2
        (checkBucketKey "anonymous" "device-1") 1 10 11000).1 = .error 8 ∧
    (specWindowStartAcquire emptyRedis (checkBucketKey "anonymous" "device-1")
        1 10 9000).1 = .ok () ∧
    (specWindowStartAcquire
        (specWindowStartAcquire emptyRedis (checkBucketKey "anonymous" "device-1")
          1 10 9000).2
        (checkBucketKey "anonymous" "device-1") 1 10 11000).1 = .ok () := by
  exact ⟨rfl, by decide, rfl, rfl, rfl, rfl⟩

/-- C4 (amended): each acquire atomically increments the counter keyed by
`(tier, identity)` — `coro:rl:{tier}:{identity}`, the window being enforced
by the key's expiry rather than by a window-start key component; the expiry
is set only on the increment that creates the counter (count 0→1, i.e. no
live entry existed); an increment of an existing live counter leaves its
expiry untouched; the request is rejected exactly when the post-increment
count exceeds the limit; and the rejection's retry-after hint is the key's
remaining time-to-live with a minimum of 1 second.  `RateLimiter.check`
routes the acquire to exactly that key. -/
theorem redisAcquire_fixed_window_spec :
    (∀ (s : RedisStore) (k : String) (L W : ℕ) (now : ℤ),
      (redisLookup s k now = none →
        (redisAcquire s k L W now).2 k = some ⟨1, some (now + secMs W)⟩ ∧
        (∀ k2, k2 ≠ k → (redisAcquire s k L W now).2 k2 = s k2) ∧
        (1 ≤ L → (redisAcquire s k L W now).1 = .ok ()) ∧
        (L < 1 → (redisAcquire s k L W now).1 =
          .error (max (redisTtl (redisAcquire s k L W now).2 k now) 1))) ∧
      (∀ c e, 1 ≤ c → redisLookup s k now = some ⟨c, e⟩ →
        (redisAcquire s k L W now).2 k = some ⟨c + 1, e⟩ ∧
        (∀ k2, k2 ≠ k → (redisAcquire s k L W now).2 k2 = s k2) ∧
        (c + 1 ≤ L → (redisAcquire s k L W now).1 = .ok ()) ∧
        (L < c + 1 → (redisAcquire s k L W now).1 =
          .error (max (redisTtl (redisAcquire s k L W now).2 k now) 1)))) ∧
    (∀ (rl : RateLimiterModel) (key tier : String) (now : ℤ) (L W : ℕ)
        (b : BackendState),
      rl.backend = some b →
      (rl.limits.lookup tier).orElse (fun _ => rl.limits.lookup "anonymous")
        = some (L, W) →
      rateLimiterCheck rl key tier now =
        match backendAcquire b (checkBucketKey tier key) L W now with
        | .ok st => .passed st
        | .limited r2 st => .limited r2 st
        | .crashed => .pyError "list index out of range") := by
  constructor
  · intro s k L W now
    constructor
    · intro hpre
      have hincr : redisIncr s k now =
          (1, fun k2 => if k2 = k then some ⟨1, none⟩ else s k2) := by
        rw [redisIncr, hpre]
      have hlook1 : redisLookup (fun k2 => if k2 = k then some ⟨1, none⟩ else s k2)
          k now = some ⟨1, none⟩ := by
        simp [redisLookup, RedisEntry.live]
      have hexp : redisExpire (fun k2 => if k2 = k then some ⟨1, none⟩ else s k2)
          k W now =
          (fun k2 => if k2 = k then some ⟨1, some (now + secMs W)⟩ else s k2) := by
        simp only [redisExpire, hlook1]
        funext k2
        by_cases hk : k2 = k
        · simp [hk]
        · simp [hk]
      have hacq : redisAcquire s k L W now =
          (if L < 1 then
            (.error (max (redisTtl
              (fun k2 => if k2 = k then some ⟨1, some (now + secMs W)⟩ else s k2)
              k now) 1),
             fun k2 => if k2 = k then some ⟨1, some (now + secMs W)⟩ else s k2)
           else (.ok (),
             fun k2 => if k2 = k then some ⟨1, some (now + secMs W)⟩ else s k2)) := by
        rw [redisAcquire, hincr]
        simp only [eq_self_iff_true, if_true, hexp]
      refine ⟨?_, ?_, ?_, ?_⟩
      · rw [hacq]; by_cases hL : L < 1 <;> simp [hL]
      · intro k2 hk2; rw [hacq]; by_cases hL : L < 1 <;> simp [hL, hk2]
      · intro hL; rw [hacq, if_neg (Nat.not_lt.mpr hL)]
      · intro hL; rw [hacq, if_pos hL]
    · intro c e hc hpre
      have hincr : redisIncr s k now =
          (c + 1, fun k2 => if k2 = k then some ⟨c + 1, e⟩ else s k2) := by
        rw [redisIncr, hpre]
      have hacq : redisAcquire s k L W now =
          (if L < c + 1 then
            (.error (max (redisTtl
              (fun k2 => if k2 = k then some ⟨c + 1, e⟩ else s k2) k now) 1),
             fun k2 => if k2 = k then some ⟨c + 1, e⟩ else s k2)
           else (.ok (), fun k2 => if k2 = k then some ⟨c + 1, e⟩ else s k2)) := by
        rw [redisAcquire, hincr]
        simp only [if_neg (by omega : ¬ c + 1 = 1)]
      refine ⟨?_, ?_, ?_, ?_⟩
      · rw [hacq]; by_cases hL : L < c + 1 <;> simp [hL]
      · intro k2 hk2; rw [hacq]; by_cases hL : L < c + 1 <;> simp [hL, hk2]
      · intro hL; rw [hacq, if_neg (Nat.not_lt.mpr hL)]
      · intro hL; rw [hacq, if_pos hL]
  · intro rl key tier now L W b hb hcfg
    rw [rateLimiterCheck, hb, hcfg]

/-- C4 witness: the amended theorem applied to a fresh key (the counter is
created with value 1, expiry set, request admitted with limit 1) and then to
the resulting store (the counter is incremented to 2 with the expiry left
untouched, and the request is rejected). -/
theorem redisAcquire_fixed_window_spec_witness :
    (redisLookup emptyRedis "coro:rl:anonymous:alice" 5000 = none ∧
      (redisAcquire emptyRedis "coro:rl:anonymous:alice" 1 10 5000).2
          "coro:rl:anonymous:alice" = some ⟨1, some (5000 + secMs 10)⟩ ∧
      (redisAcquire emptyRedis "coro:rl:anonymous:alice" 1 10 5000).1 = .ok ()) ∧
    (redisLookup (redisAcquire emptyRedis "coro:rl:anonymous:alice" 1 10 5000).2
        "coro:rl:anonymous:alice" 6000 = some ⟨1, some 15000⟩ ∧
      (redisAcquire (redisAcquire emptyRedis "coro:rl:anonymous:alice" 1 10 5000).2
          "coro:rl:anonymous:alice" 1 10 6000).2 "coro:rl:anonymous:alice"
        = some ⟨2, some 15000⟩ ∧
      (redisAcquire (redisAcquire emptyRedis "coro:rl:anonymous:alice" 1 10 5000).2
          "coro:rl:anonymous:alice" 1 10 6000).1 =
        .error (max (redisTtl
          (redisAcquire (redisAcquire emptyRedis "coro:rl:anonymous:alice" 1 10 5000).2
            "coro:rl:anonymous:alice" 1 10 6000).2 "coro:rl:anonymous:alice" 6000) 1)) := by
  have h1 := (redisAcquire_fixed_window_spec.1 emptyRedis
    "coro:rl:anonymous:alice" 1 10 5000).1 (by rfl)
  have h2 := (redisAcquire_fixed_window_spec.1
    (redisAcquire emptyRedis "coro:rl:anonymous:alice" 1 10 5000).2
    "coro:rl:anonymous:alice" 1 10 6000).2 1 (some 15000) (by decide) (by rfl)
  exact ⟨⟨by rfl, h1.1, h1.2.2.1 (by decide)⟩,
    ⟨by rfl, h2.1, h2.2.2.2 (by decide)⟩⟩

/-! ### Claim C6 -/

/-- C6 — fail-open: when the global limiter instance is absent, or present
but uninitialized, the `enforce_rate_limit` dependency allows every request;
and `RateLimiter.check` with no backend never produces a rate-limit
rejection (it raises `RuntimeError`, which is not a rate-limit rejection). -/
theorem rate_limiter_fail_open :
    (∀ (coroToken : Option String) (req : IncomingRequest) (now : ℤ),
      (enforceRateLimit none coroToken req now).1 = .allowed) ∧
    (∀ (rl : RateLimiterModel) (coroToken : Option String) (req : IncomingRequest)
        (now : ℤ), rl.initialized = false →
      (enforceRateLimit (some rl) coroToken req now).1 = .allowed) ∧
    (∀ (rl : RateLimiterModel) (key tier : String) (now : ℤ),
      rl.backend = none →
      ∀ r st, rateLimiterCheck rl key tier now ≠ .limited r st) := by
  refine ⟨?_, ?_, ?_⟩
  · intro coroToken req now
    rfl
  · intro rl ct req now h
    simp [enforceRateLimit, h]
  · intro rl key tier now h r st
    simp [rateLimiterCheck, h]

/-- C6 witness: the theorem applied to the absent limiter, to a concrete
uninitialized limiter, and to a concrete limiter whose backend is `none`. -/
theorem rate_limiter_fail_open_witness :
    (enforceRateLimit none none ⟨none, none, none, none⟩ 0).1 = .allowed ∧
    ((⟨[("anonymous", 30, 60)], none, none, false⟩ : RateLimiterModel).initialized
        = false ∧
      (enforceRateLimit (some ⟨[("anonymous", 30, 60)], none, none, false⟩)
        none ⟨none, none, none, none⟩ 0).1 = .allowed) ∧
    ((⟨[("anonymous", 30, 60)], none, none, false⟩ : RateLimiterModel).backend
        = none ∧
      ∀ r st, rateLimiterCheck ⟨[("anonymous", 30, 60)], none, none, false⟩
        "alice" "anonymous" 0 ≠ .limited r st) := by
  refine ⟨rate_limiter_fail_open.1 none ⟨none, none, none, none⟩ 0,
    ⟨rfl, rate_limiter_fail_open.2.1 _ none ⟨none, none, none, none⟩ 0 rfl⟩,
    ⟨rfl, rate_limiter_fail_open.2.2 _ "alice" "anonymous" 0 rfl⟩⟩

/-! ### Claim C9 -/

/-- C9 — counterexample: on the in-process store, `add("", subject)` stores
an entry for the empty token, yet `exists("")` immediately afterwards
returns `false` (the `if not token` guard), contradicting "for every token
and subject: add(token, subject) immediately followed by exists(token)
returns true". -/
theorem premium_session_empty_token_counterexample :
    ((premiumAdd ⟨false, fun _ => none, 86400, fun _ => none⟩ "" "alice" 0).sessions ""
      = some ("alice", secMs 86400)) ∧
    (premiumExists (premiumAdd ⟨false, fun _ => none, 86400, fun _ => none⟩
        "" "alice" 0) "" 0).1 = false := by
  exact ⟨by decide, by decide⟩

/-- C9 (amended): on the in-process premium session store, for every
**non-empty** token and every subject: `add` immediately followed by
`exists` at the same instant returns true; once the configured TTL has
elapsed past the entry's expiry, `exists` returns false; an entry whose
expiry lies strictly in the past is lazily evicted (reported false and
removed); and `exists` never returns true for an entry past its expiry. -/
theorem premium_session_lifecycle :
    ∀ (st : PremiumStoreState) (token user : String) (now later : ℤ),
      st.hasRedis = false → token ≠ "" →
      ((premiumExists (premiumAdd st token user now) token now).1 = true) ∧
      (now + secMs st.ttl < later →
        (premiumExists (premiumAdd st token user now) token later).1 = false) ∧
      (∀ u e, st.sessions token = some (u, e) → e < later →
        (premiumExists st token later).1 = false ∧
        (premiumExists st token later).2.sessions token = none) ∧
      ((premiumExists st token later).1 = true →
        ∃ u e, st.sessions token = some (u, e) ∧ ¬ e < later) := by
  intro st token user now later hR hT
  have hsec : 0 ≤ secMs st.ttl := by
    simp only [secMs]
    positivity
  refine ⟨?_, ?_, ?_, ?_⟩
  · simp only [premiumExists, premiumAdd, hR, Bool.false_eq_true, if_false,
      if_neg hT, if_pos rfl, eq_self_iff_true, if_true]
    rw [if_neg (by omega : ¬ now + secMs st.ttl < now)]
  · intro hlt
    simp only [premiumExists, premiumAdd, hR, Bool.false_eq_true, if_false,
      if_neg hT, if_pos rfl, eq_self_iff_true, if_true]
    rw [if_pos hlt]
  · intro u e hs hlt
    constructor
    · simp only [premiumExists, hR, Bool.false_eq_true, if_false, if_neg hT, hs]
      rw [if_pos hlt]
    · simp only [premiumExists, hR, Bool.false_eq_true, if_false, if_neg hT, hs]
      rw [if_pos hlt]
      simp
  · intro htrue
    revert htrue
    simp only [premiumExists, hR, Bool.false_eq_true, if_false, if_neg hT]
    cases hs : st.sessions token with
    | none => intro h; cases h
    | some p =>
      obtain ⟨u, e⟩ := p
      by_cases hlt : e < later
      · simp [hlt]
      · simp only [hlt, if_false]
        intro _
        exact ⟨u, e, rfl, hlt⟩

/-- C9 witness: the amended theorem applied to a concrete empty in-process
store, token `"tok"`, subject `"alice"`, add at time 0 and lookups at 0 and
at 86 400 001 ms (one millisecond past the 86400 s TTL). -/
theorem premium_session_lifecycle_witness :
    ((premiumExists (premiumAdd ⟨false, fun _ => none, 86400, fun _ => none⟩
        "tok" "alice" 0) "tok" 0).1 = true) ∧
    ((0 : ℤ) + secMs 86400 < 86400001 →
      (premiumExists (premiumAdd ⟨false, fun _ => none, 86400, fun _ => none⟩
        "tok" "alice" 0) "tok" 86400001).1 = false) ∧
    ((0 : ℤ) + secMs 86400 < 86400001) := by
  have h := premium_session_lifecycle ⟨false, fun _ => none, 86400, fun _ => none⟩
    "tok" "alice" 0 86400001 rfl (by decide)
  exact ⟨h.1, h.2.1, by decide⟩

/-! ### Claims C1 and C3 -/

theorem chatEntry_model (keys : Keys) (env : String → ProviderCallEnv)
    (req : ChatRequest) (mid : String) : (chatEntry keys env req mid).model = mid :=
  generateForModel_model keys (env mid) mid req.prompt (historyFor req mid)
    (overrideFor req mid)
    (composeSystemPrompt req.conversation_guide req.search_context)

theorem chatEntry_latency (keys : Keys) (env : String → ProviderCallEnv)
    (req : ChatRequest) (mid : String) : 0 ≤ (chatEntry keys env req mid).latency_ms :=
  generateForModel_latency keys (env mid) mid req.prompt (historyFor req mid)
    (overrideFor req mid)
    (composeSystemPrompt req.conversation_guide req.search_context)

theorem chatEntry_env_local (keys : Keys) (env env2 : String → ProviderCallEnv)
    (req : ChatRequest) (mid : String) (h : env2 mid = env mid) :
    chatEntry keys env2 req mid = chatEntry keys env req mid := by
  unfold chatEntry
  rw [h]

/-- C1 — failure isolation in the chat dispatcher: the handler only ever
fails with the unknown-model precondition rejection; under the precondition
(every requested id is registered) it returns one entry per requested model,
each computed only from that model's own provider environment, so (a)
changing what any one "bad" model's provider call does never changes any
sibling model's entry, and (b) every sibling entry equals the entry produced
by the same request with the bad model removed. -/
theorem chat_provider_failure_isolation :
    ∀ (keys : Keys) (env : String → ProviderCallEnv) (te : ℕ) (req : ChatRequest),
      (∀ e, chat keys env te req = .error e →
        ∃ m ∈ req.models, ¬ configModelIds.contains m) ∧
      ((∀ m ∈ req.models, configModelIds.contains m) →
        ∃ resp, chat keys env te req = .ok resp ∧
          resp.responses = req.models.map (chatEntry keys env req) ∧
          (∀ (bad : String) (env2 : String → ProviderCallEnv),
            (∀ m, m ≠ bad → env2 m = env m) →
            ∃ resp2, chat keys env2 te req = .ok resp2 ∧
              resp2.responses.filter (fun p => ! (p.model == bad)) =
                resp.responses.filter (fun p => ! (p.model == bad))) ∧
          (∀ bad : String,
            ∃ resp3,
              chat keys env te
                { req with models := req.models.filter (fun m => ! (m == bad)) }
                = .ok resp3 ∧
              resp3.responses =
                resp.responses.filter (fun p => ! (p.model == bad)))) := by
  intro keys env te req
  constructor
  · intro e he
    by_cases hv : ∀ m ∈ req.models, configModelIds.contains m
    · rw [chat_ok_of_valid keys env te req hv] at he
      cases he
    · push_neg at hv
      obtain ⟨m, hm, hmc⟩ := hv
      exact ⟨m, hm, by simpa using hmc⟩
  · intro hv
    refine ⟨_, chat_ok_of_valid keys env te req hv, rfl, ?_, ?_⟩
    · intro bad env2 henv
      refine ⟨_, chat_ok_of_valid keys env2 te req hv, ?_⟩
      have hq : ∀ (e3 : String → ProviderCallEnv) (m : String),
          (fun p : ModelResponse => ! (p.model == bad)) (chatEntry keys e3 req m)
            = (fun m2 : String => ! (m2 == bad)) m := by
        intro e3 m
        simp only [chatEntry_model]
      rw [map_filter_comm (chatEntry keys env2 req) _ (fun m => ! (m == bad))
            (hq env2) req.models,
          map_filter_comm (chatEntry keys env req) _ (fun m => ! (m == bad))
            (hq env) req.models]
      refine List.map_congr_left ?_
      intro m hm
      have hmb : ¬ m = bad := by
        have := (List.mem_filter.mp hm).2
        simpa using this
      exact chatEntry_env_local keys env env2 req m (henv m hmb)
    · intro bad
      have hv2 : ∀ m ∈ req.models.filter (fun m => ! (m == bad)),
          configModelIds.contains m := by
        intro m hm
        exact hv m (List.mem_filter.mp hm).1
      refine ⟨_, chat_ok_of_valid keys env te _ hv2, ?_⟩
      have hentry : chatEntry keys env
          { req with models := req.models.filter (fun m => ! (m == bad)) }
            = chatEntry keys env req := by
        funext mid
        rfl
      rw [hentry]
      have hq : ∀ m : String,
          (fun p : ModelResponse => ! (p.model == bad)) (chatEntry keys env req m)
            = (fun m2 : String => ! (m2 == bad)) m := by
        intro m
        simp only [chatEntry_model]
      rw [map_filter_comm (chatEntry keys env req) _ (fun m => ! (m == bad))
            hq req.models]

/-- C1 witness: a two-model request (`gemini`, `deepseek`) where the
DeepSeek provider call fails; the hypothesis holds, the handler returns
`.ok`, and the isolation conclusions are obtained for `bad := "deepseek"`. -/
theorem chat_provider_failure_isolation_witness :
    (∀ m ∈ (ChatRequest.mk "hi" ["gemini", "deepseek"] 1 100 none none none
        none none).models, configModelIds.contains m) ∧
    (∃ resp,
      chat ⟨some "k", some "k", some "k", some "k"⟩
          (fun _ => ⟨.responded [⟨1, true⟩] "fine", .raised "boom", .responded "fine" none, 5⟩)
          7 (ChatRequest.mk "hi" ["gemini", "deepseek"] 1 100 none none none none none)
        = .ok resp ∧
      resp.responses =
        (ChatRequest.mk "hi" ["gemini", "deepseek"] 1 100 none none none
          none none).models.map
          (chatEntry ⟨some "k", some "k", some "k", some "k"⟩
            (fun _ => ⟨.responded [⟨1, true⟩] "fine", .raised "boom", .responded "fine" none, 5⟩)
            (ChatRequest.mk "hi" ["gemini", "deepseek"] 1 100 none none none none none)) ∧
      (∀ (bad : String) (env2 : String → ProviderCallEnv),
        (∀ m, m ≠ bad →
          env2 m = (fun _ => (⟨.responded [⟨1, true⟩] "fine", .raised "boom",
            .responded "fine" none, 5⟩ : ProviderCallEnv)) m) →
        ∃ resp2, chat ⟨some "k", some "k", some "k", some "k"⟩ env2 7
            (ChatRequest.mk "hi" ["gemini", "deepseek"] 1 100 none none none none none)
          = .ok resp2 ∧
          resp2.responses.filter (fun p => ! (p.model == bad)) =
            resp.responses.filter (fun p => ! (p.model == bad))) ∧
      (∀ bad : String,
        ∃ resp3,
          chat ⟨some "k", some "k", some "k", some "k"⟩
            (fun _ => ⟨.responded [⟨1, true⟩] "fine", .raised "boom", .responded "fine" none, 5⟩)
            7 { ChatRequest.mk "hi" ["gemini", "deepseek"] 1 100 none none none none none
                  with models := (ChatRequest.mk "hi" ["gemini", "deepseek"] 1 100 none
                    none none none none).models.filter (fun m => ! (m == bad)) }
            = .ok resp3 ∧
          resp3.responses = resp.responses.filter (fun p => ! (p.model == bad)))) := by
  refine ⟨by decide, ?_⟩
  exact (chat_provider_failure_isolation ⟨some "k", some "k", some "k", some "k"⟩
    (fun _ => ⟨.responded [⟨1, true⟩] "fine", .raised "boom", .responded "fine" none, 5⟩)
    7 (ChatRequest.mk "hi" ["gemini", "deepseek"] 1 100 none none none none none)).2
    (by decide)

/-- C3 — for every request whose N model identifiers are all registered, the
handler returns exactly one `ModelResponse` per requested model, the i-th
entry reporting the i-th requested identifier (the `model` fields, read in
order, are exactly the requested list — so the count is N and the order is
the request order), and every entry's `latency_ms` is non-negative. -/
theorem chat_response_shape :
    ∀ (keys : Keys) (env : String → ProviderCallEnv) (te : ℕ) (req : ChatRequest),
      (∀ m ∈ req.models, configModelIds.contains m) →
      ∃ resp, chat keys env te req = .ok resp ∧
        resp.responses.length = req.models.length ∧
        resp.responses.map (fun p => p.model) = req.models ∧
        ∀ p ∈ resp.responses, 0 ≤ p.latency_ms := by
  intro keys env te req hv
  refine ⟨_, chat_ok_of_valid keys env te req hv, by simp, ?_, ?_⟩
  · rw [List.map_map]
    have hcomp : (fun p : ModelResponse => p.model) ∘ chatEntry keys env req
        = fun mid => mid := by
      funext mid
      exact chatEntry_model keys env req mid
    rw [hcomp]
    exact List.map_id' req.models
  · intro p hp
    obtain ⟨mid, _, rfl⟩ := List.mem_map.mp hp
    exact chatEntry_latency keys env req mid

/-- C3 witness: the theorem applied to a three-model request covering all
three dispatch families (`gemini`, `llama-8b`, `deepseek`) with one failing
provider call. -/
theorem chat_response_shape_witness :
    (∀ m ∈ (ChatRequest.mk "hi" ["gemini", "llama-8b", "deepseek"] 1 100 none
        none none none none).models, configModelIds.contains m) ∧
    (∃ resp,
      chat ⟨some "k", none, some "k", some "k"⟩
          (fun _ => ⟨.raised "boom", .responded "fine" (some 3), .responded "fine" none, 5⟩)
          7 (ChatRequest.mk "hi" ["gemini", "llama-8b", "deepseek"] 1 100 none none
            none none none)
        = .ok resp ∧
      resp.responses.length =
        (ChatRequest.mk "hi" ["gemini", "llama-8b", "deepseek"] 1 100 none none
          none none none).models.length ∧
      resp.responses.map (fun p => p.model) =
        (ChatRequest.mk "hi" ["gemini", "llama-8b", "deepseek"] 1 100 none none
          none none none).models ∧
      ∀ p ∈ resp.responses, 0 ≤ p.latency_ms) := by
  refine ⟨by decide, ?_⟩
  exact chat_response_shape ⟨some "k", none, some "k", some "k"⟩
    (fun _ => ⟨.raised "boom", .responded "fine" (some 3), .responded "fine" none, 5⟩)
    7 (ChatRequest.mk "hi" ["gemini", "llama-8b", "deepseek"] 1 100 none none
      none none none) (by decide)

end Coro
